import Mathlib

/-!
Shallow embedding of the Mirror smart-mirror tracking pipeline
(`core/scaler_crop_controller.py`, `core/display_processor.py`,
`core/distance_sensor.py`, `core/async_helper.py`, `core/frame_buffer.py`,
`core/face_processor.py`).  Python floats are modelled by exact rationals;
Python `int(...)` truncation is modelled by `pyInt`.
-/

namespace Mirror

/-- Python `int(q)`: truncation toward zero. -/
def pyInt (q : ℚ) : ℤ := Int.tdiv q.num (q.den : ℤ)

/-- The zoom levels of `core/camera_manager.py` (`ZoomLevel` enum). -/
inductive ZoomLevel
  | wide
  | face
  | eyes
  | lips
deriving DecidableEq, Repr

/-- A face bounding box `[xmin, ymin, width, height]` in normalized
frame coordinates, as stored in `FaceData.bbox`. -/
structure Bbox where
  xmin : ℚ
  ymin : ℚ
  w : ℚ
  h : ℚ
deriving DecidableEq, Repr

/-- `FaceData` from `core/face_processor.py`: bbox, landmark list and
confidence score. -/
structure FaceData where
  bbox : Bbox
  landmarks : List (ℚ × ℚ)
  confidence : ℚ
deriving DecidableEq, Repr

/-- The data-model invariant stated in the spec for `FaceData`:
all coordinates in [0,1] and exactly four landmarks. -/
def FaceData.Valid (fd : FaceData) : Prop :=
  0 ≤ fd.bbox.xmin ∧ fd.bbox.xmin ≤ 1 ∧
  0 ≤ fd.bbox.ymin ∧ fd.bbox.ymin ≤ 1 ∧
  0 ≤ fd.bbox.w ∧ fd.bbox.w ≤ 1 ∧
  0 ≤ fd.bbox.h ∧ fd.bbox.h ≤ 1 ∧
  (∀ p ∈ fd.landmarks, 0 ≤ p.1 ∧ p.1 ≤ 1 ∧ 0 ≤ p.2 ∧ p.2 ≤ 1) ∧
  fd.landmarks.length = 4

instance (fd : FaceData) : Decidable fd.Valid := by
  unfold FaceData.Valid; infer_instance

/-- A normalized crop rectangle `(x, y, width, height)` as stored in
`ScalerCropController.current_crop` / `target_crop`. -/
structure Crop where
  x : ℚ
  y : ℚ
  w : ℚ
  h : ℚ
deriving DecidableEq, Repr

/-- `ScalerCropController.hardware_zoom_ratios`. -/
def hardware_zoom_ratios : ZoomLevel → ℚ
  | .wide => 12 / 10
  | .face => 1
  | .eyes => 6 / 10
  | .lips => 5 / 10

/-- `ScalerCropController.smoothing_factor` (0.15). -/
def smoothing_factor : ℚ := 15 / 100

/-- `ScalerCropController.movement_threshold_ratio` (0.10) from the source. -/
def movement_threshold : ℚ := 10 / 100

/-- The mutable state of `ScalerCropController` relevant to crop logic. -/
structure CropCtrl where
  current_crop : Option Crop
  target_crop : Option Crop
  current_zoom : ZoomLevel
deriving DecidableEq, Repr

/-- Initial controller state (`__init__`). -/
def CropCtrl.init : CropCtrl := ⟨none, none, .face⟩

/-- `ScalerCropController.set_zoom_level`: stores the zoom level and resets
`current_crop` to `None`. -/
def set_zoom_level (z : ZoomLevel) (s : CropCtrl) : CropCtrl :=
  { s with current_zoom := z, current_crop := none }

/-- `ScalerCropController.update_target_crop`: target crop centered on the
bbox center with size `max(w, h) * hardware_zoom_ratios[current_zoom]`. -/
def update_target_crop (fd : FaceData) (s : CropCtrl) : CropCtrl :=
  let center_x := fd.bbox.xmin + fd.bbox.w / 2
  let center_y := fd.bbox.ymin + fd.bbox.h / 2
  let base_size := max fd.bbox.w fd.bbox.h
  let size := base_size * hardware_zoom_ratios s.current_zoom
  let x := center_x - size / 2
  let y := center_y - size / 2
  { s with target_crop := some ⟨x, y, size, size⟩ }

/-- Squared Euclidean distance between the centers of two crops
(the code compares `sqrt` of this against the threshold). -/
def centerDistSq (c t : Crop) : ℚ :=
  let dx := (t.x + t.w / 2) - (c.x + c.w / 2)
  let dy := (t.y + t.h / 2) - (c.y + c.h / 2)
  dx ^ 2 + dy ^ 2

/-- The move condition of `_smooth_crop_update`:
`distance > current.w * movement_threshold_ratio`, written without a
square root (`sqrt s > thr` iff `thr < 0` or `s > thr ^ 2`). -/
def exceedsDeadZone (c t : Crop) : Prop :=
  c.w * movement_threshold < 0 ∨
    centerDistSq c t > (c.w * movement_threshold) ^ 2

instance (c t : Crop) : Decidable (exceedsDeadZone c t) := by
  unfold exceedsDeadZone; infer_instance

/-- Exponential smoothing of one crop component:
`current + (target - current) * smoothing_factor`. -/
def smoothComponent (current target : ℚ) : ℚ :=
  current + (target - current) * smoothing_factor

/-- Component-wise smoothing of a whole crop toward the target. -/
def smoothCrop (c t : Crop) : Crop :=
  ⟨smoothComponent c.x t.x, smoothComponent c.y t.y,
   smoothComponent c.w t.w, smoothComponent c.h t.h⟩

/-- `ScalerCropController._smooth_crop_update`: `None` target is a no-op;
`None` current adopts the target directly; otherwise the crop moves only
when the center distance exceeds the dead zone. -/
def smooth_crop_update (s : CropCtrl) : CropCtrl :=
  match s.target_crop with
  | none => s
  | some t =>
    match s.current_crop with
    | none => { s with current_crop := some t }
    | some c =>
      if exceedsDeadZone c t then
        { s with current_crop := some (smoothCrop c t) }
      else s

/-- One iteration of the controller's update loop acting on crop state. -/
def tick (s : CropCtrl) : CropCtrl := smooth_crop_update s

/-- `n` iterations of `tick`. -/
def tickN : ℕ → CropCtrl → CropCtrl
  | 0, s => s
  | n + 1, s => tick (tickN n s)

/-- `ScalerCropController._convert_to_sensor_coordinates`:
normalized crop to integer sensor-pixel crop `(x, y, size, size)`. -/
def convert_to_sensor_coordinates (sensor_width sensor_height : ℤ)
    (c : Crop) : ℤ × ℤ × ℤ × ℤ :=
  let center_x : ℚ := (c.x + c.w / 2) * (sensor_width : ℚ)
  let center_y : ℚ := (c.y + c.h / 2) * (sensor_height : ℚ)
  let sensor_size : ℤ := pyInt (c.h * (sensor_height : ℚ))
  let sx : ℤ := pyInt (center_x - (sensor_size : ℚ) / 2)
  let sy : ℤ := pyInt (center_y - (sensor_size : ℚ) / 2)
  let sensor_x : ℤ := max 0 (min (sensor_width - sensor_size) sx)
  let sensor_y : ℤ := max 0 (min (sensor_height - sensor_size) sy)
  (sensor_x, sensor_y, sensor_size, sensor_size)

/-- The hardware crop issued for face data `fd` right after a zoom change:
`set_zoom_level`, then `update_target_crop`, then one `tick` (which adopts
the target), then the sensor-coordinate conversion. -/
def hardwareCropOf (sensor_width sensor_height : ℤ) (z : ZoomLevel)
    (fd : FaceData) : ℤ × ℤ × ℤ × ℤ :=
  let s := tick (update_target_crop fd (set_zoom_level z CropCtrl.init))
  convert_to_sensor_coordinates sensor_width sensor_height
    (s.current_crop.getD ⟨0, 0, 0, 0⟩)

/-- The crop sequence produced by iterating `_smooth_crop_update` from
current crop `c` with a fixed target `t`: each step moves only when the
dead zone is exceeded. -/
def cropSeq (t c : Crop) : ℕ → Crop
  | 0 => c
  | n + 1 =>
    let cn := cropSeq t c n
    if exceedsDeadZone cn t then smoothCrop cn t else cn

/-- `DisplayProcessor._get_landmark_center`: the center point used for the
software display crop, selected per zoom level from the landmark list
(index 0 left eye, 1 right eye, 2 nose, 3 mouth).  Python indexes the list
directly (raising on a short list); the `getD` defaults are reached only by
lists shorter than four, which no theorem below uses. -/
def get_landmark_center (landmarks : List (ℚ × ℚ)) (z : ZoomLevel) : ℚ × ℚ :=
  let l0 := landmarks.getD 0 (0, 0)
  let l1 := landmarks.getD 1 (0, 0)
  match z with
  | .eyes => ((l0.1 + l1.1) / 2, (l0.2 + l1.2) / 2)
  | .lips => landmarks.getD 3 (0, 0)
  | _ => landmarks.getD 2 (0, 0)

/-- A detector result as `FaceProcessor.process_frame` consumes it:
the raw relative bounding box, the relative keypoints and the score
(all straight from the external face detector, unclamped). -/
structure Detection where
  bbox : Bbox
  keypoints : List (ℚ × ℚ)
  score : ℚ
deriving DecidableEq, Repr

/-- Python `max(0.0, min(1.0, v))`. -/
def clamp01 (v : ℚ) : ℚ := max 0 (min 1 v)

/-- The `FaceData` construction of `FaceProcessor.process_frame`: each bbox
field is clamped to [0,1]; the landmark list and confidence are copied from
the detection as they are. -/
def process_frame (det : Detection) : FaceData :=
  { bbox := ⟨clamp01 det.bbox.xmin, clamp01 det.bbox.ymin,
             clamp01 det.bbox.w, clamp01 det.bbox.h⟩
    landmarks := det.keypoints
    confidence := det.score }

/-- `FrameBuffer` state: the bounded FIFO queue (`maxsize` 3) and the
separate latest-value slot. -/
structure FrameBuffer (α : Type) where
  frames : List α
  latest : Option α
deriving DecidableEq, Repr

/-- A fresh buffer: empty queue, no latest frame. -/
def FrameBuffer.empty {α : Type} : FrameBuffer α := ⟨[], none⟩

/-- `FrameBuffer.add_frame`: a `None` frame is ignored; otherwise the latest
slot is replaced and the frame is appended to the queue, dropping the
oldest queued frame when the queue is at its bound of 3. -/
def add_frame {α : Type} (fb : FrameBuffer α) (frame : Option α) : FrameBuffer α :=
  match frame with
  | none => fb
  | some f =>
    if fb.frames.length < 3 then ⟨fb.frames ++ [f], some f⟩
    else ⟨fb.frames.drop 1 ++ [f], some f⟩

/-- `FrameBuffer.get_latest_frame`: a snapshot of the latest slot. -/
def get_latest_frame {α : Type} (fb : FrameBuffer α) : Option α := fb.latest

/-- The bracketing-interval scan of `_map_distance_to_focus`: walk adjacent
calibration pairs and linearly interpolate in the first interval containing
`d`; the Python `for … else` fallback value is `fallback`. -/
def interpScan (d fallback : ℚ) : List (ℚ × ℚ) → ℚ
  | (d1, f1) :: (d2, f2) :: rest =>
    if d1 ≤ d ∧ d ≤ d2 then f1 + (f2 - f1) * (d - d1) / (d2 - d1)
    else interpScan d fallback ((d2, f2) :: rest)
  | _ => fallback

/-- The clamp-or-interpolate part of `DistanceSensor._map_distance_to_focus`
(before smoothing), over calibration points sorted by distance.  Python
would raise on an empty calibration; `0` there is unreachable in the
theorems below. -/
def rawFocus (pts : List (ℚ × ℚ)) (d : ℚ) : ℚ :=
  match pts with
  | [] => 0
  | (d0, f0) :: _ =>
    let lastP := pts.getLast?.getD (d0, f0)
    if d ≤ d0 then f0
    else if d ≥ lastP.1 then lastP.2
    else interpScan d f0 pts

/-- Append to `focus_history` (a deque with `maxlen` 5). -/
def pushHistory (h : List ℚ) (v : ℚ) : List ℚ :=
  let h2 := h ++ [v]
  if h2.length ≤ 5 then h2 else h2.drop (h2.length - 5)

/-- The raw weights `[0.1, 0.15, 0.2, 0.25, 0.3]` of the focus smoothing. -/
def focusWeights : List ℚ := [1/10, 3/20, 1/5, 1/4, 3/10]

/-- The weighted average of `_map_distance_to_focus`: the last
`len(history)` weights, normalized to sum 1, applied oldest-to-newest. -/
def smoothedFocus (h : List ℚ) : ℚ :=
  let ws := focusWeights.drop (focusWeights.length - h.length)
  let wsum := ws.sum
  let ws2 := ws.map (· / wsum)
  ((h.zip ws2).map fun p => p.1 * p.2).sum

/-- `DistanceSensor._map_distance_to_focus` with smoothing enabled: maps the
distance through the calibration, pushes the raw value into the history and
returns the weighted average together with the new history. -/
def map_distance_to_focus (pts : List (ℚ × ℚ)) (h : List ℚ) (d : ℚ) :
    ℚ × List ℚ :=
  let raw := rawFocus pts d
  let h2 := pushHistory h raw
  (smoothedFocus h2, h2)

/-- The calibration points `{(30, 11.0), (60, 9.6), (90, 9.5)}` named by the
spec's focus-interpolation property. -/
def calib3 : List (ℚ × ℚ) := [(30, 11), (60, 48/5), (90, 19/2)]

/-- An entry of `AsyncHelper.task_queue`: `(priority, task_id)`; the queue
orders entries by the Python tuple order, priority first and then the
task-id string. -/
abbrev TaskEntry := ℤ × String

/-- The heap order on queue entries: lexicographic on (priority, task_id),
exactly how Python compares the queued tuples. -/
def entryLe (a b : TaskEntry) : Prop :=
  a.1 < b.1 ∨ (a.1 = b.1 ∧ a.2 ≤ b.2)

instance (a b : TaskEntry) : Decidable (entryLe a b) := by
  unfold entryLe; infer_instance

/-- Pop the least entry (priority first, then task id) from the queue,
returning it with the remaining entries — the behaviour of
`PriorityQueue.get_nowait` on the scheduler's `(priority, task_id, …)`
tuples. -/
def popMin : List TaskEntry → Option (TaskEntry × List TaskEntry)
  | [] => none
  | e :: rest =>
    match popMin rest with
    | none => some (e, [])
    | some (m, rest') =>
      if entryLe e m then some (e, rest) else some (m, e :: rest')

/-- Drain the queue by repeated `popMin` (at most `fuel` pops): the order in
which `_run_event_loop` processes the queued tasks. -/
def drainFuel : ℕ → List TaskEntry → List TaskEntry
  | 0, _ => []
  | fuel + 1, q =>
    match popMin q with
    | none => []
    | some (e, q') => e :: drainFuel fuel q'

/-- The complete processing order of a queue of tasks. -/
def drain (q : List TaskEntry) : List TaskEntry := drainFuel q.length q

/-- Look a task id up in the `results` dict. -/
def lookupResult {ρ : Type} : List (String × ρ) → String → Option ρ
  | [], _ => none
  | (k, v) :: rest, i => if k = i then some v else lookupResult rest i

/-- `results[task_id] = value`: replace the stored value or add the key. -/
def storeResult {ρ : Type} : List (String × ρ) → String → ρ → List (String × ρ)
  | [], i, v => [(i, v)]
  | (k, w) :: rest, i, v =>
    if k = i then (k, v) :: rest else (k, w) :: storeResult rest i v

/-- `results.pop(task_id, None)`'s removal. -/
def eraseResult {ρ : Type} : List (String × ρ) → String → List (String × ρ)
  | [], _ => []
  | (k, w) :: rest, i => if k = i then rest else (k, w) :: eraseResult rest i

/-- The outcome of running a task's function: it raised (`Except.error`) or
returned a Python value, `none` standing for Python `None`. -/
abbrev TaskOutcome (ρ : Type) := Except Unit (Option ρ)

/-- The effect of `AsyncHelper._process_task` on the `results` dict: an
exception is caught and stores nothing; a `None` result is not stored;
any other result is stored under the task id. -/
def process_task {ρ : Type} (results : List (String × ρ)) (task_id : String)
    (outcome : TaskOutcome ρ) : List (String × ρ) :=
  match outcome with
  | .error _ => results
  | .ok none => results
  | .ok (some r) => storeResult results task_id r

/-- `AsyncHelper.get_result`: non-blocking poll; with `clear` the entry is
popped, otherwise only read; the default for a missing id is `none`. -/
def get_result {ρ : Type} (results : List (String × ρ)) (task_id : String)
    (clear : Bool) : Option ρ × List (String × ρ) :=
  if clear then (lookupResult results task_id, eraseResult results task_id)
  else (lookupResult results task_id, results)

/-- The face data of C1's counterexample: a large, valid, full-confidence
face filling 90% of the frame. -/
def bigFace : FaceData :=
  { bbox := ⟨1/20, 1/20, 9/10, 9/10⟩
    landmarks := [(2/5, 2/5), (3/5, 2/5), (1/2, 1/2), (1/2, 3/5)]
    confidence := 9/10 }

/-- The face data of C1's counterexample for `size > 0`: a degenerate but
in-range bbox of width and height zero. -/
def pointFace : FaceData :=
  { bbox := ⟨1/2, 1/2, 0, 0⟩
    landmarks := [(2/5, 2/5), (3/5, 2/5), (1/2, 1/2), (1/2, 3/5)]
    confidence := 9/10 }

/-- The face data of C7's counterexample: the spec's own end-to-end example
(bbox `[0.4,0.4,0.2,0.2]`, landmarks eyes/nose/mouth). -/
def exampleFace : FaceData :=
  { bbox := ⟨2/5, 2/5, 1/5, 1/5⟩
    landmarks := [(9/20, 9/20), (11/20, 9/20), (1/2, 1/2), (1/2, 11/20)]
    confidence := 9/10 }

/-- The detection of C8's counterexample: six MediaPipe keypoints, one of
them outside [0,1]. -/
def wildDetection : Detection :=
  { bbox := ⟨1/2, -1/4, 3/2, 1/2⟩
    keypoints := [(3/2, -1/5), (11/20, 9/20), (1/2, 1/2), (1/2, 11/20),
                  (3/5, 1/2), (2/5, 1/2)]
    score := 9/10 }

/-! ## Helper lemmas -/

lemma not_exceeds_of_lt (c t : Crop) (h0 : 0 < c.w * movement_threshold)
    (h1 : centerDistSq c t < (c.w * movement_threshold) ^ 2) :
    ¬ exceedsDeadZone c t := by
  unfold exceedsDeadZone
  push_neg
  exact ⟨h0.le, h1.le⟩

lemma tick_frozen (z : ZoomLevel) (c t : Crop) (h : ¬ exceedsDeadZone c t) :
    tick ⟨some c, some t, z⟩ = ⟨some c, some t, z⟩ := by
  unfold tick smooth_crop_update
  simp [h]

lemma map_distance_empty (pts : List (ℚ × ℚ)) (d : ℚ) :
    (map_distance_to_focus pts [] d).1 = rawFocus pts d := by
  unfold map_distance_to_focus pushHistory smoothedFocus focusWeights
  norm_num

lemma rawFocus_calib3 (d : ℚ) :
    rawFocus calib3 d =
      if d ≤ 30 then 11
      else if d ≥ 90 then 19/2
      else interpScan d 11 calib3 := rfl

lemma interpScan_calib3 (d : ℚ) :
    interpScan d 11 calib3 =
      if 30 ≤ d ∧ d ≤ 60 then 11 + (48/5 - 11) * (d - 30) / (60 - 30)
      else if 60 ≤ d ∧ d ≤ 90 then 48/5 + (19/2 - 48/5) * (d - 60) / (90 - 60)
      else 11 := rfl

lemma entryLe_refl (a : TaskEntry) : entryLe a a := Or.inr ⟨rfl, le_refl _⟩

lemma entryLe_trans {a b c : TaskEntry} (h : entryLe a b) (h' : entryLe b c) :
    entryLe a c := by
  rcases h with h | ⟨e1, h1⟩ <;> rcases h' with h' | ⟨e2, h2⟩
  · exact Or.inl (h.trans h')
  · exact Or.inl (e2 ▸ h)
  · exact Or.inl (e1 ▸ h')
  · exact Or.inr ⟨e1.trans e2, h1.trans h2⟩

lemma entryLe_total (a b : TaskEntry) : entryLe a b ∨ entryLe b a := by
  rcases lt_trichotomy a.1 b.1 with h | h | h
  · exact Or.inl (Or.inl h)
  · rcases le_total a.2 b.2 with h2 | h2
    · exact Or.inl (Or.inr ⟨h, h2⟩)
    · exact Or.inr (Or.inr ⟨h.symm, h2⟩)
  · exact Or.inr (Or.inl h)

lemma popMin_cons_ne (a : TaskEntry) (rest : List TaskEntry) :
    popMin (a :: rest) ≠ none := by
  rw [popMin]
  rcases popMin rest with _ | ⟨m, rest'⟩
  · exact fun hcon => Option.noConfusion hcon
  · show (if entryLe a m then some (a, rest) else some (m, a :: rest')) ≠ none
    split <;> exact fun hcon => Option.noConfusion hcon

lemma popMin_eq_none (q : List TaskEntry) : popMin q = none ↔ q = [] := by
  cases q with
  | nil => simp [popMin]
  | cons a rest => simp [popMin_cons_ne a rest]

lemma popMin_min (q : List TaskEntry) :
    ∀ e q', popMin q = some (e, q') → ∀ x ∈ q, entryLe e x := by
  induction q with
  | nil => intro e q' h; simp [popMin] at h
  | cons a rest ih =>
    intro e q' h x hx
    rcases hrest : popMin rest with _ | ⟨m, rest'⟩ <;>
      rw [popMin, hrest] at h <;>
      simp only [Option.some.injEq, Prod.mk.injEq] at h
    · obtain ⟨h1, -⟩ := h
      subst h1
      have hnil : rest = [] := (popMin_eq_none rest).mp hrest
      subst hnil
      simp only [List.mem_singleton] at hx
      subst hx
      exact entryLe_refl x
    · split_ifs at h with hle <;>
        simp only [Option.some.injEq, Prod.mk.injEq] at h <;>
        obtain ⟨h1, -⟩ := h <;> subst h1
      · rcases List.mem_cons.mp hx with hxa | hx2
        · subst hxa; exact entryLe_refl x
        · exact entryLe_trans hle (ih m rest' hrest x hx2)
      · rcases List.mem_cons.mp hx with hxa | hx2
        · subst hxa
          rcases entryLe_total x m with h' | h'
          · exact absurd h' hle
          · exact h'
        · exact ih m rest' hrest x hx2

lemma hardwareCropOf_eq (sw sh : ℤ) (z : ZoomLevel) (fd : FaceData) :
    hardwareCropOf sw sh z fd
      = convert_to_sensor_coordinates sw sh
          ⟨fd.bbox.xmin + fd.bbox.w / 2
              - max fd.bbox.w fd.bbox.h * hardware_zoom_ratios z / 2,
            fd.bbox.ymin + fd.bbox.h / 2
              - max fd.bbox.w fd.bbox.h * hardware_zoom_ratios z / 2,
            max fd.bbox.w fd.bbox.h * hardware_zoom_ratios z,
            max fd.bbox.w fd.bbox.h * hardware_zoom_ratios z⟩ := rfl

lemma convert_bounds (sw sh : ℤ) (c : Crop) :
    0 ≤ (convert_to_sensor_coordinates sw sh c).1 ∧
    0 ≤ (convert_to_sensor_coordinates sw sh c).2.1 ∧
    (convert_to_sensor_coordinates sw sh c).2.2.2
      = (convert_to_sensor_coordinates sw sh c).2.2.1 ∧
    ((convert_to_sensor_coordinates sw sh c).2.2.1 ≤ sw →
      (convert_to_sensor_coordinates sw sh c).2.2.1 ≤ sh →
      (convert_to_sensor_coordinates sw sh c).1
          + (convert_to_sensor_coordinates sw sh c).2.2.1 ≤ sw ∧
        (convert_to_sensor_coordinates sw sh c).2.1
          + (convert_to_sensor_coordinates sw sh c).2.2.1 ≤ sh) := by
  unfold convert_to_sensor_coordinates
  dsimp only
  refine ⟨le_max_left _ _, le_max_left _ _, rfl, fun h1 h2 => ⟨?_, ?_⟩⟩ <;>
    omega

lemma clamp01_nonneg (v : ℚ) : 0 ≤ clamp01 v := le_max_left 0 _

lemma clamp01_le_one (v : ℚ) : clamp01 v ≤ 1 :=
  max_le zero_le_one (min_le_left 1 _)

/-! ## Claim theorems -/

/-- C2: for every zoom level, face data and starting state, `set_zoom`
resets `current_crop` to `None` while storing the zoom level, and
`set_zoom(level)` then `update_target(face_data)` then one `tick()` makes
`current_crop` equal to `target_crop` exactly (the first tick after a zoom
change snaps, with no smoothing and no dead-zone check). -/
theorem C2_zoom_snap (z : ZoomLevel) (fd : FaceData) (s : CropCtrl) :
    (set_zoom_level z s).current_zoom = z ∧
    (set_zoom_level z s).current_crop = none ∧
    (tick (update_target_crop fd (set_zoom_level z s))).current_crop
      = (tick (update_target_crop fd (set_zoom_level z s))).target_crop :=
  ⟨rfl, rfl, rfl⟩

/-- C3: when the target's center is strictly inside the dead zone of the
current crop (center distance below `movement_threshold_ratio *
current_crop.size`), any number of `tick()` calls leaves the controller
state unchanged. -/
theorem C3_dead_zone (n : ℕ) (z : ZoomLevel) (c t : Crop)
    (h0 : 0 < c.w * movement_threshold)
    (h1 : centerDistSq c t < (c.w * movement_threshold) ^ 2) :
    tickN n ⟨some c, some t, z⟩ = ⟨some c, some t, z⟩ := by
  induction n with
  | zero => rfl
  | succ k ih =>
    show tick (tickN k _) = _
    rw [ih, tick_frozen z c t (not_exceeds_of_lt c t h0 h1)]

/-- Witness for C3 at a concrete dead-zone configuration. -/
theorem C3_dead_zone_witness :
    tickN 7 ⟨some ⟨0, 0, 1/5, 1/5⟩, some ⟨1/1000, 0, 1/5, 1/5⟩, .face⟩
      = ⟨some ⟨0, 0, 1/5, 1/5⟩, some ⟨1/1000, 0, 1/5, 1/5⟩, .face⟩ :=
  C3_dead_zone 7 .face ⟨0, 0, 1/5, 1/5⟩ ⟨1/1000, 0, 1/5, 1/5⟩
    (by with_unfolding_all decide) (by with_unfolding_all decide)

/-- C9: publishing a frame and reading with no intervening publish returns
exactly that frame; a fresh buffer reads as empty. -/
theorem C9_slot_freshness (α : Type) (v : α) (fb : FrameBuffer α) :
    get_latest_frame (add_frame fb (some v)) = some v ∧
    get_latest_frame (FrameBuffer.empty : FrameBuffer α) = none := by
  constructor
  · show (if fb.frames.length < 3 then (⟨fb.frames ++ [v], some v⟩ : FrameBuffer α)
        else ⟨fb.frames.drop 1 ++ [v], some v⟩).latest = some v
    split <;> rfl
  · rfl

/-- C10: a task whose function completes and returns `None` stores nothing
in `results`, so `get_result` afterwards returns `None` — the same answer
as for a task that raised, was dropped, or never ran. -/
theorem C10_none_result (ρ : Type) (results : List (String × ρ))
    (task_id : String) (h : lookupResult results task_id = none) :
    process_task results task_id (Except.ok none) = results ∧
    process_task results task_id (Except.error ()) = results ∧
    (get_result (process_task results task_id (Except.ok none)) task_id true).1
      = none ∧
    (get_result (process_task results task_id (Except.error ())) task_id true).1
      = none ∧
    (get_result results task_id true).1 = none := by
  refine ⟨rfl, rfl, ?_, ?_, ?_⟩ <;>
    simpa [process_task, get_result] using h

/-- Witness for C10 at a concrete results dict and fresh task id. -/
theorem C10_none_result_witness :
    process_task [("x", 1)] "t" (Except.ok (none : Option ℕ)) = [("x", 1)] ∧
    process_task [("x", 1)] "t" (Except.error () : TaskOutcome ℕ) = [("x", 1)] ∧
    (get_result (process_task [("x", 1)] "t" (Except.ok (none : Option ℕ)))
        "t" true).1 = none ∧
    (get_result (process_task [("x", 1)] "t" (Except.error () : TaskOutcome ℕ))
        "t" true).1 = none ∧
    (get_result [("x", (1 : ℕ))] "t" true).1 = none :=
  C10_none_result ℕ [("x", 1)] "t" (by with_unfolding_all decide)

/-- C5: over the calibration points `{(30,11.0),(60,9.6),(90,9.5)}` the
distance-to-focus map (on a fresh history) clamps below the first point to
11.0 and above the last point to 9.5, linearly interpolates inside each
bracketing interval, and concretely: the value at 45 is strictly between
9.6 and 11.0, the value at 10 is exactly 11.0, and at 200 exactly 9.5. -/
theorem C5_focus_interpolation :
    (∀ d : ℚ, d ≤ 30 → (map_distance_to_focus calib3 [] d).1 = 11) ∧
    (∀ d : ℚ, 90 ≤ d → (map_distance_to_focus calib3 [] d).1 = 19/2) ∧
    (∀ d : ℚ, 30 < d → d < 60 →
      (map_distance_to_focus calib3 [] d).1
        = 11 + (48/5 - 11) * (d - 30) / (60 - 30)) ∧
    (∀ d : ℚ, 60 < d → d < 90 →
      (map_distance_to_focus calib3 [] d).1
        = 48/5 + (19/2 - 48/5) * (d - 60) / (90 - 60)) ∧
    48/5 < (map_distance_to_focus calib3 [] 45).1 ∧
    (map_distance_to_focus calib3 [] 45).1 < 11 ∧
    (map_distance_to_focus calib3 [] 10).1 = 11 ∧
    (map_distance_to_focus calib3 [] 200).1 = 19/2 := by
  refine ⟨?_, ?_, ?_, ?_, ?_, ?_, ?_, ?_⟩
  · intro d hd
    rw [map_distance_empty, rawFocus_calib3, if_pos hd]
  · intro d hd
    rw [map_distance_empty, rawFocus_calib3, if_neg (by linarith),
      if_pos (show d ≥ 90 from hd)]
  · intro d h1 h2
    rw [map_distance_empty, rawFocus_calib3, if_neg (by linarith),
      if_neg (show ¬ d ≥ 90 by linarith), interpScan_calib3,
      if_pos ⟨by linarith, by linarith⟩]
  · intro d h1 h2
    rw [map_distance_empty, rawFocus_calib3, if_neg (by linarith),
      if_neg (show ¬ d ≥ 90 by linarith), interpScan_calib3,
      if_neg (by rintro ⟨-, hcon⟩; linarith),
      if_pos ⟨by linarith, by linarith⟩]
  · with_unfolding_all decide
  · with_unfolding_all decide
  · with_unfolding_all decide
  · with_unfolding_all decide

/-- Witness for C5: the four quantified clauses at concrete distances. -/
theorem C5_focus_interpolation_witness :
    (map_distance_to_focus calib3 [] 20).1 = 11 ∧
    (map_distance_to_focus calib3 [] 95).1 = 19/2 ∧
    (map_distance_to_focus calib3 [] 40).1
      = 11 + (48/5 - 11) * (40 - 30) / (60 - 30) ∧
    (map_distance_to_focus calib3 [] 70).1
      = 48/5 + (19/2 - 48/5) * (70 - 60) / (90 - 60) :=
  ⟨C5_focus_interpolation.1 20 (by with_unfolding_all decide),
   C5_focus_interpolation.2.1 95 (by with_unfolding_all decide),
   C5_focus_interpolation.2.2.1 40 (by with_unfolding_all decide)
     (by with_unfolding_all decide),
   C5_focus_interpolation.2.2.2.1 70 (by with_unfolding_all decide)
     (by with_unfolding_all decide)⟩

/-- C6 counterexample: two tasks of equal priority submitted in the order
`"b"` then `"a"` are dequeued as `"a"` then `"b"` — lexicographic task-id
order, not FIFO submission order. -/
theorem C6_fifo_cex :
    drain [((2 : ℤ), "b"), (2, "a")] = [((2 : ℤ), "a"), (2, "b")] ∧
    ([((2 : ℤ), "a"), (2, "b")] : List TaskEntry) ≠ [(2, "b"), (2, "a")] := by
  with_unfolding_all decide

/-- C6 amended: the queue always dequeues an entry minimal in the
lexicographic (priority, task_id) order — so a strictly lower priority
value is always dequeued first when present, but equal priorities are
served in task-id order rather than submission order; in particular five
priority-2 tasks submitted before one priority-0 task are processed with
the priority-0 task strictly first. -/
theorem C6_priority_order :
    (∀ (q : List TaskEntry) (e : TaskEntry) (q' : List TaskEntry),
        popMin q = some (e, q') → ∀ x ∈ q, entryLe e x) ∧
    drain [((2 : ℤ), "t1"), (2, "t2"), (2, "t3"), (2, "t4"), (2, "t5"),
        (0, "p0")]
      = [((0 : ℤ), "p0"), (2, "t1"), (2, "t2"), (2, "t3"), (2, "t4"),
        (2, "t5")] :=
  ⟨popMin_min, by with_unfolding_all decide⟩

/-- Witness for C6: the dequeue-minimality clause at a concrete queue. -/
theorem C6_priority_order_witness :
    entryLe (0, "p0") (2, "t1") :=
  C6_priority_order.1 [(0, "p0"), (2, "t1")] (0, "p0") [(2, "t1")]
    (by with_unfolding_all decide) (2, "t1") (by simp)

/-- C7 counterexample: on the spec's own example face with zoom `EYES`,
`update_target_crop` centers the target on the bbox center `(0.5, 0.5)`,
not on the eye midpoint `(0.5, 0.45)` demanded by the claim, so the
claimed target `(0.44, 0.39, 0.12)` is not produced. -/
theorem C7_target_center_cex :
    FaceData.Valid exampleFace ∧
    (update_target_crop exampleFace ⟨none, none, .eyes⟩).target_crop
      = some ⟨11/25, 11/25, 3/25, 3/25⟩ ∧
    (update_target_crop exampleFace ⟨none, none, .eyes⟩).target_crop
      ≠ some ⟨11/25, 39/100, 3/25, 3/25⟩ := by
  with_unfolding_all decide

/-- C7 amended: `update_target_crop` always centers the target on the bbox
center with `size = max(bbox.w, bbox.h) * hardware_zoom_ratios[zoom]`; the
per-zoom landmark center selection (EYES → eye midpoint, LIPS → mouth,
FACE/WIDE → nose) is implemented in `DisplayProcessor._get_landmark_center`
and used only for the software display crop. -/
theorem C7_target_center (fd : FaceData) (s : CropCtrl) :
    (update_target_crop fd s).target_crop
      = some ⟨fd.bbox.xmin + fd.bbox.w / 2
                - max fd.bbox.w fd.bbox.h
                  * hardware_zoom_ratios s.current_zoom / 2,
              fd.bbox.ymin + fd.bbox.h / 2
                - max fd.bbox.w fd.bbox.h
                  * hardware_zoom_ratios s.current_zoom / 2,
              max fd.bbox.w fd.bbox.h * hardware_zoom_ratios s.current_zoom,
              max fd.bbox.w fd.bbox.h
                * hardware_zoom_ratios s.current_zoom⟩ ∧
    (∀ p0 p1 p2 p3 : ℚ × ℚ,
      get_landmark_center [p0, p1, p2, p3] .eyes
          = ((p0.1 + p1.1) / 2, (p0.2 + p1.2) / 2) ∧
      get_landmark_center [p0, p1, p2, p3] .lips = p3 ∧
      get_landmark_center [p0, p1, p2, p3] .face = p2 ∧
      get_landmark_center [p0, p1, p2, p3] .wide = p2) :=
  ⟨rfl, fun _ _ _ _ => ⟨rfl, rfl, rfl, rfl⟩⟩

/-- C8 counterexample: `process_frame` copies the detector's keypoints
unclamped and with their original count, so a detection with six keypoints,
one outside [0,1], produces `FaceData` violating the claimed invariant. -/
theorem C8_facedata_invariant_cex :
    ¬ FaceData.Valid (process_frame wildDetection) ∧
    (process_frame wildDetection).landmarks.length = 6 ∧
    (3/2, -1/5) ∈ (process_frame wildDetection).landmarks := by
  with_unfolding_all decide

/-- C8 amended: `process_frame` clamps each bbox field to [0,1] but passes
the landmark list and confidence through from the detector unmodified, so
the [0,1] and length-4 parts of the invariant hold for the landmarks only
when the detector output already satisfies them. -/
theorem C8_facedata_invariant (det : Detection) :
    0 ≤ (process_frame det).bbox.xmin ∧ (process_frame det).bbox.xmin ≤ 1 ∧
    0 ≤ (process_frame det).bbox.ymin ∧ (process_frame det).bbox.ymin ≤ 1 ∧
    0 ≤ (process_frame det).bbox.w ∧ (process_frame det).bbox.w ≤ 1 ∧
    0 ≤ (process_frame det).bbox.h ∧ (process_frame det).bbox.h ≤ 1 ∧
    (process_frame det).landmarks = det.keypoints ∧
    (process_frame det).confidence = det.score :=
  ⟨clamp01_nonneg _, clamp01_le_one _, clamp01_nonneg _, clamp01_le_one _,
   clamp01_nonneg _, clamp01_le_one _, clamp01_nonneg _, clamp01_le_one _,
   rfl, rfl⟩

/-- C1 counterexample: the conversion to sensor coordinates does not bound
the crop size, so a valid 90%-of-frame face at zoom WIDE yields
`y + size > sensor_height` on a 4056×3040 sensor, and a valid degenerate
bbox yields `size = 0`. -/
theorem C1_crop_bounds_cex :
    FaceData.Valid bigFace ∧
    (hardwareCropOf 4056 3040 .wide bigFace).2.1
        + (hardwareCropOf 4056 3040 .wide bigFace).2.2.1 > 3040 ∧
    FaceData.Valid pointFace ∧
    (hardwareCropOf 4056 3040 .face pointFace).2.2.1 = 0 := by
  with_unfolding_all decide

/-- C1 amended: the hardware crop always satisfies `0 ≤ x` and `0 ≤ y`,
and it satisfies `x + size ≤ sensor_width`, `y + size ≤ sensor_height` and
`size > 0` provided the sensor-pixel size `int(size * sensor_height)` is
positive and at most both sensor dimensions — which the conversion itself
does not enforce. -/
theorem C1_crop_bounds (sw sh : ℤ) (z : ZoomLevel) (fd : FaceData)
    (_hfd : fd.Valid) :
    0 ≤ (hardwareCropOf sw sh z fd).1 ∧
    0 ≤ (hardwareCropOf sw sh z fd).2.1 ∧
    ((0 < (hardwareCropOf sw sh z fd).2.2.1 ∧
        (hardwareCropOf sw sh z fd).2.2.1 ≤ min sw sh) →
      (hardwareCropOf sw sh z fd).1 + (hardwareCropOf sw sh z fd).2.2.1 ≤ sw ∧
      (hardwareCropOf sw sh z fd).2.1 + (hardwareCropOf sw sh z fd).2.2.1 ≤ sh) := by
  simp only [hardwareCropOf_eq]
  obtain ⟨hx, hy, -, himp⟩ := convert_bounds sw sh
    ⟨fd.bbox.xmin + fd.bbox.w / 2
        - max fd.bbox.w fd.bbox.h * hardware_zoom_ratios z / 2,
      fd.bbox.ymin + fd.bbox.h / 2
        - max fd.bbox.w fd.bbox.h * hardware_zoom_ratios z / 2,
      max fd.bbox.w fd.bbox.h * hardware_zoom_ratios z,
      max fd.bbox.w fd.bbox.h * hardware_zoom_ratios z⟩
  exact ⟨hx, hy, fun hs =>
    himp (hs.2.trans (min_le_left _ _)) (hs.2.trans (min_le_right _ _))⟩

/-- Witness for C1 at the spec's example face on a 4056×3040 sensor. -/
theorem C1_crop_bounds_witness :
    0 ≤ (hardwareCropOf 4056 3040 .face exampleFace).1 ∧
    (hardwareCropOf 4056 3040 .face exampleFace).1
        + (hardwareCropOf 4056 3040 .face exampleFace).2.2.1 ≤ 4056 ∧
    (hardwareCropOf 4056 3040 .face exampleFace).2.1
        + (hardwareCropOf 4056 3040 .face exampleFace).2.2.1 ≤ 3040 :=
  ⟨(C1_crop_bounds 4056 3040 .face exampleFace (by with_unfolding_all decide)).1,
   ((C1_crop_bounds 4056 3040 .face exampleFace
        (by with_unfolding_all decide)).2.2
      (by with_unfolding_all decide)).1,
   ((C1_crop_bounds 4056 3040 .face exampleFace
        (by with_unfolding_all decide)).2.2
      (by with_unfolding_all decide)).2⟩

lemma tick_move (z : ZoomLevel) (c t : Crop) (h : exceedsDeadZone c t) :
    tick ⟨some c, some t, z⟩ = ⟨some (smoothCrop c t), some t, z⟩ := by
  unfold tick smooth_crop_update
  simp [h]

lemma tickN_cropSeq (z : ZoomLevel) (c t : Crop) (n : ℕ) :
    tickN n ⟨some c, some t, z⟩ = ⟨some (cropSeq t c n), some t, z⟩ := by
  induction n with
  | zero => rfl
  | succ k ih =>
    show tick (tickN k _) = _
    rw [ih]
    by_cases hz : exceedsDeadZone (cropSeq t c k) t
    · rw [tick_move z _ t hz]
      simp only [cropSeq]
      rw [if_pos hz]
    · rw [tick_frozen z _ t hz]
      simp only [cropSeq]
      rw [if_neg hz]

lemma cropSeq_w_pos (t c : Crop) (hc : 0 < c.w) (ht : 0 < t.w) (n : ℕ) :
    0 < (cropSeq t c n).w := by
  induction n with
  | zero => exact hc
  | succ k ih =>
    simp only [cropSeq]
    split
    · show 0 < smoothComponent (cropSeq t c k).w t.w
      unfold smoothComponent smoothing_factor
      linarith
    · exact ih

lemma cropSeq_w_min (t c : Crop) (n : ℕ) :
    min c.w t.w ≤ (cropSeq t c n).w := by
  induction n with
  | zero => exact min_le_left _ _
  | succ k ih =>
    simp only [cropSeq]
    split
    · show min c.w t.w ≤ smoothComponent (cropSeq t c k).w t.w
      unfold smoothComponent smoothing_factor
      have h2 : min c.w t.w ≤ t.w := min_le_right _ _
      linarith
    · exact ih

lemma centerDistSq_smooth (c t : Crop) :
    centerDistSq (smoothCrop c t) t = 289/400 * centerDistSq c t := by
  unfold centerDistSq smoothCrop smoothComponent smoothing_factor
  ring

lemma centerDistSq_nonneg (c t : Crop) : 0 ≤ centerDistSq c t := by
  unfold centerDistSq
  positivity

lemma cropSeq_dist_all_move (t c : Crop) (n : ℕ)
    (hall : ∀ k < n, exceedsDeadZone (cropSeq t c k) t) :
    centerDistSq (cropSeq t c n) t = (289/400) ^ n * centerDistSq c t := by
  induction n with
  | zero => simp [cropSeq]
  | succ k ih =>
    have hk : exceedsDeadZone (cropSeq t c k) t := hall k (Nat.lt_succ_self k)
    have ihh := ih fun j hj => hall j (hj.trans (Nat.lt_succ_self k))
    simp only [cropSeq]
    rw [if_pos hk, centerDistSq_smooth, ihh]
    ring

lemma exists_deadzone_hit (t c : Crop) (hc : 0 < c.w) (ht : 0 < t.w) :
    ∃ n, ¬ exceedsDeadZone (cropSeq t c n) t := by
  rcases eq_or_lt_of_le (centerDistSq_nonneg c t) with h0 | h0
  · refine ⟨0, ?_⟩
    unfold exceedsDeadZone movement_threshold
    push_neg
    constructor
    · have hw : (cropSeq t c 0).w = c.w := rfl
      rw [hw]
      linarith
    · have hd : centerDistSq (cropSeq t c 0) t = centerDistSq c t := rfl
      rw [hd, ← h0]
      positivity
  · have hmpos : 0 < min c.w t.w := lt_min hc ht
    have hε : (0 : ℚ) < (min c.w t.w * (10/100)) ^ 2 / centerDistSq c t := by
      positivity
    obtain ⟨M, hM⟩ :=
      exists_pow_lt_of_lt_one hε (show (289/400 : ℚ) < 1 by norm_num)
    by_contra hno
    push_neg at hno
    have hclosed := cropSeq_dist_all_move t c M fun k _ => hno k
    have hwM : min c.w t.w ≤ (cropSeq t c M).w := cropSeq_w_min t c M
    have hsq : (min c.w t.w * (10/100)) ^ 2
        ≤ ((cropSeq t c M).w * movement_threshold) ^ 2 := by
      unfold movement_threshold
      have h1 : 0 ≤ min c.w t.w * (10/100) := by positivity
      have h2 : min c.w t.w * (10/100) ≤ (cropSeq t c M).w * (10/100) := by
        linarith
      exact pow_le_pow_left₀ h1 h2 2
    have hlt : centerDistSq (cropSeq t c M) t
        < (min c.w t.w * (10/100)) ^ 2 := by
      rw [hclosed]
      calc (289/400 : ℚ) ^ M * centerDistSq c t
          < ((min c.w t.w * (10/100)) ^ 2 / centerDistSq c t)
              * centerDistSq c t :=
            mul_lt_mul_of_pos_right hM h0
        _ = (min c.w t.w * (10/100)) ^ 2 := div_mul_cancel₀ _ h0.ne'
    have hthr : 0 < (cropSeq t c M).w * movement_threshold := by
      unfold movement_threshold
      nlinarith
    rcases hno M with hneg | hgt
    · linarith
    · linarith

/-- C4: from any crop state whose fixed target lies outside the dead zone
(and whose current and target sizes are positive, the `CropRegion`
invariant), repeated `tick()` calls strictly decrease the Euclidean
distance between the current and target centers on every tick up to some
bound `N`, and at tick `N` that distance is within the dead-zone
threshold (and the controller has stopped moving). -/
theorem C4_monotone_convergence (z : ZoomLevel) (c t : Crop)
    (hc : 0 < c.w) (ht : 0 < t.w) (_hmove : exceedsDeadZone c t) :
    ∃ N : ℕ,
      (∀ n < N,
        Real.sqrt ((centerDistSq
            ((tickN (n + 1) ⟨some c, some t, z⟩).current_crop.getD c) t : ℚ))
          < Real.sqrt ((centerDistSq
            ((tickN n ⟨some c, some t, z⟩).current_crop.getD c) t : ℚ))) ∧
      Real.sqrt ((centerDistSq
          ((tickN N ⟨some c, some t, z⟩).current_crop.getD c) t : ℚ))
        ≤ ((((tickN N ⟨some c, some t, z⟩).current_crop.getD c).w
            * movement_threshold : ℚ) : ℝ) := by
  have hex : ∃ n, ¬ exceedsDeadZone (cropSeq t c n) t :=
    exists_deadzone_hit t c hc ht
  refine ⟨Nat.find hex, ?_, ?_⟩
  · intro n hn
    have hmoven : exceedsDeadZone (cropSeq t c n) t := by
      have hmin := Nat.find_min hex hn
      simpa using hmin
    simp only [tickN_cropSeq, Option.getD_some]
    have hstep : centerDistSq (cropSeq t c (n + 1)) t
        = 289/400 * centerDistSq (cropSeq t c n) t := by
      simp only [cropSeq]
      rw [if_pos hmoven, centerDistSq_smooth]
    have hpos : 0 < centerDistSq (cropSeq t c n) t := by
      have hw := cropSeq_w_pos t c hc ht n
      rcases hmoven with hlt | hgt
      · unfold movement_threshold at hlt
        nlinarith
      · have hsq := sq_nonneg ((cropSeq t c n).w * movement_threshold)
        linarith
    apply Real.sqrt_lt_sqrt
    · exact_mod_cast centerDistSq_nonneg _ _
    · rw [hstep]
      have hq : (289/400 : ℚ) * centerDistSq (cropSeq t c n) t
          < centerDistSq (cropSeq t c n) t := by linarith
      exact_mod_cast hq
  · have hstop := Nat.find_spec hex
    simp only [tickN_cropSeq, Option.getD_some]
    generalize hK : cropSeq t c (Nat.find hex) = K at hstop ⊢
    unfold exceedsDeadZone at hstop
    push_neg at hstop
    obtain ⟨hthr, hdsq⟩ := hstop
    have hcast : ((centerDistSq K t : ℚ) : ℝ)
        ≤ (((K.w * movement_threshold : ℚ) : ℝ)) ^ 2 := by
      push_cast
      exact_mod_cast hdsq
    calc Real.sqrt ((centerDistSq K t : ℚ))
        ≤ Real.sqrt ((((K.w * movement_threshold : ℚ) : ℝ)) ^ 2) :=
          Real.sqrt_le_sqrt hcast
      _ = ((K.w * movement_threshold : ℚ) : ℝ) :=
          Real.sqrt_sq (by exact_mod_cast hthr)

/-- Witness for C4 at a concrete out-of-dead-zone configuration. -/
theorem C4_monotone_convergence_witness :
    ∃ N : ℕ,
      (∀ n < N,
        Real.sqrt ((centerDistSq
            ((tickN (n + 1) ⟨some ⟨0, 0, 1/5, 1/5⟩, some ⟨1/2, 1/2, 1/5, 1/5⟩,
                .face⟩).current_crop.getD ⟨0, 0, 1/5, 1/5⟩)
            ⟨1/2, 1/2, 1/5, 1/5⟩ : ℚ))
          < Real.sqrt ((centerDistSq
            ((tickN n ⟨some ⟨0, 0, 1/5, 1/5⟩, some ⟨1/2, 1/2, 1/5, 1/5⟩,
                .face⟩).current_crop.getD ⟨0, 0, 1/5, 1/5⟩)
            ⟨1/2, 1/2, 1/5, 1/5⟩ : ℚ))) ∧
      Real.sqrt ((centerDistSq
          ((tickN N ⟨some ⟨0, 0, 1/5, 1/5⟩, some ⟨1/2, 1/2, 1/5, 1/5⟩,
              .face⟩).current_crop.getD ⟨0, 0, 1/5, 1/5⟩)
          ⟨1/2, 1/2, 1/5, 1/5⟩ : ℚ))
        ≤ ((((tickN N ⟨some ⟨0, 0, 1/5, 1/5⟩, some ⟨1/2, 1/2, 1/5, 1/5⟩,
              .face⟩).current_crop.getD ⟨0, 0, 1/5, 1/5⟩).w
            * movement_threshold : ℚ) : ℝ) :=
  C4_monotone_convergence .face ⟨0, 0, 1/5, 1/5⟩ ⟨1/2, 1/2, 1/5, 1/5⟩
    (by with_unfolding_all decide) (by with_unfolding_all decide)
    (by with_unfolding_all decide)

end Mirror
